import Mathlib

/-!
# Credential lifecycle of the GitLab secrets backend

A shallow embedding of `path_config_rotate.go` and `secret_access_tokens.go`:

* `checkAndRotateConfigToken` and `pathConfigTokenRotate`, the rotation of the
  administrative token of a configuration;
* `secretAccessTokenRevoke`, the revocation of a leased access token.

The Go handlers act on a backend (client cache), on the storage of the request,
on a remote GitLab client and on the event sender.  Here every handler is a
function from a `World` to an `Outcome` and a new `World`; the world carries the
storage, the client cache and the trace of the calls made to the collaborators,
oldest first.  A Go run-time panic (unchecked type assertion on a missing map
entry, method call through a nil pointer) is the outcome `panicked`.

Collaborators whose code is outside these two files (`getConfig`, `saveConfig`,
`getClient`, the remote client, the time formatter) are fields of `Env` and of
`Client`: theorems hold for every behaviour of them.  The reader/writer mutex
and the logger are left out: one handler invocation is modelled at a time.
-/

namespace Gitlab

set_option linter.dupNamespace false

/-! ## Errors -/

/-- Go `error` values: the package's sentinel errors, errors raised by the
collaborators, and `fmt.Errorf("<msg>: %w", err)`. -/
inductive Error where
  | ErrNilValue
  | ErrInvalidValue
  | ErrAccessTokenNotFound
  | ErrBackendNotConfigured
  | other (msg : String)
  | wrapf (msg : String) (err : Error)
  deriving DecidableEq, Repr

namespace Error

/-- Modelled from the spec: the message texts of the sentinel errors are declared
outside these sources; the names of the error taxonomy stand for them. -/
def Error : Gitlab.Error → String
  | ErrNilValue => "nil value"
  | ErrInvalidValue => "invalid value"
  | ErrAccessTokenNotFound => "access token not found"
  | ErrBackendNotConfigured => "backend not configured"
  | other msg => msg
  | wrapf msg err => msg ++ ": " ++ Error err

/-- Go `errors.Is(err, target)`: `err` or an error it wraps is `target`. -/
def Is : Gitlab.Error → Gitlab.Error → Bool
  | wrapf msg err, target => decide (wrapf msg err = target) || Is err target
  | err, target => decide (err = target)

end Error

/-! ## Data model -/

/-- Go `logical.Response`, as far as these handlers build one: an error response
(`logical.ErrorResponse(text)`) or a response with a data map. -/
inductive Response where
  | ErrorResponse (text : String)
  | Data (fields : List (String × String))
  deriving DecidableEq, Repr

/-- Go `(*logical.Response).IsError`. -/
def Response.IsError : Response → Bool
  | .ErrorResponse _ => true
  | .Data _ => false

/-- Result of a handler invocation: the returned value, or a run-time panic. -/
inductive Outcome (α : Type) where
  | returned (value : α)
  | panicked (what : String)
  deriving DecidableEq, Repr

/-- Go `(*logical.Response, error)`. -/
abbrev Result := Option Response × Option Error

/-- Configuration record `EntryConfig` (the fields these handlers and the
response read).  Times are nanoseconds since the epoch, durations nanoseconds. -/
structure EntryConfig where
  Name : String
  Token : String
  TokenId : Int
  Scopes : List String
  TokenExpiresAt : Int
  AutoRotateBefore : Int
  BaseURL : String
  GitlabType : String
  deriving DecidableEq, Repr

/-- Minted credential `EntryToken`; `CreatedAt` and `ExpiresAt` are pointers in
Go, `none` is the nil pointer. -/
structure EntryToken where
  Token : String
  TokenID : Int
  Name : String
  Scopes : List String
  CreatedAt : Option Int
  ExpiresAt : Option Int
  deriving DecidableEq, Repr

/-- Go `TokenType`, with `TokenTypeUnknown` for a value that does not parse. -/
inductive TokenType where
  | TokenTypePersonal
  | TokenTypeProject
  | TokenTypeGroup
  | TokenTypeUserServiceAccount
  | TokenTypeGroupServiceAccount
  | TokenTypeUnknown
  deriving DecidableEq, Repr

/-- Modelled from the spec: `TokenTypeParse` and the texts of the five token
types are declared outside these sources; the texts are those of the spec's
scenarios.  A text that is no token type parses to `TokenTypeUnknown` with an
error, which the caller drops. -/
def TokenTypeParse (value : String) : TokenType × Bool :=
  if value = "personal" then (TokenType.TokenTypePersonal, true)
  else if value = "project" then (TokenType.TokenTypeProject, true)
  else if value = "group" then (TokenType.TokenTypeGroup, true)
  else if value = "user_service_account" then (TokenType.TokenTypeUserServiceAccount, true)
  else if value = "group_service_account" then (TokenType.TokenTypeGroupServiceAccount, true)
  else (TokenType.TokenTypeUnknown, false)

/-- A dynamically typed value of the `token_id` entry of `InternalData`. -/
inductive Value where
  | int (n : Int)
  | str (s : String)
  | bool (b : Bool)
  deriving DecidableEq, Repr

/-- The `InternalData` map of a leased secret, `map[string]interface{}` in Go.
Each entry may be missing (`none`).  The entries the issuer writes as strings
are strings when present; `token_id` is dynamically typed. -/
structure InternalData where
  config_name : Option String
  token_id : Option Value
  gitlab_revokes_token : Option String
  parent_id : Option String
  token_type : Option String
  token : Option String
  path : Option String
  name : Option String
  deriving DecidableEq, Repr

/-- Go `logical.Secret`. -/
structure Secret where
  LeaseID : String
  InternalData : InternalData
  deriving DecidableEq, Repr

/-- The remote GitLab client interface `Client`, one field per method used. -/
structure Client where
  RotateCurrentToken : Except Error EntryToken
  RevokePersonalAccessToken : Int → Option Error
  RevokeProjectAccessToken : Int → String → Option Error
  RevokeGroupAccessToken : Int → String → Option Error
  RevokeUserServiceAccountAccessToken : String → Option Error
  RevokeGroupServiceAccountAccessToken : String → Option Error

/-- A call made to a collaborator. -/
inductive Effect where
  | getConfig (name : String)
  | getClient (name : String)
  | RotateCurrentToken
  | saveConfig (config : EntryConfig) (err : Option Error)
  | event (eventType : String) (attrs : List (String × String))
  | SetClientNil (name : String)
  | RevokePersonalAccessToken (tokenId : Int)
  | RevokeProjectAccessToken (tokenId : Int) (parentId : String)
  | RevokeGroupAccessToken (tokenId : Int) (parentId : String)
  | RevokeUserServiceAccountAccessToken (token : String)
  | RevokeGroupServiceAccountAccessToken (token : String)
  deriving DecidableEq, Repr

/-- The client cache of the backend: configuration name to cached client. -/
abbrev Cache := String → Option Client

/-- State a handler runs in: the storage of the request (`none` is a nil
`logical.Storage`), the client cache of the backend, the calls made so far. -/
structure World (σ : Type) where
  storage : Option σ
  clients : Cache
  trace : List Effect

/-- Collaborators and constants declared outside these sources. -/
structure Env (σ : Type) where
  getConfig : Option σ → String → Except Error (Option EntryConfig)
  saveConfig : EntryConfig → Option σ → Option Error × Option σ
  getClient : Cache → Option σ → String → Except Error Client × Cache
  formatRFC3339 : Int → String
  fingerprint : String → String
  PathConfigStorage : String
  DefaultConfigName : String
  TypeConfigDefault : String

variable {σ : Type}

/-- Append a call to the trace. -/
def World.record (w : World σ) (e : Effect) : World σ :=
  { w with trace := w.trace ++ [e] }

/-- Modelled from the spec: `SetClient(nil, name)` of the backend, declared
outside these sources, is `set(name, none)` of the Client Cache. -/
def SetClientNil (name : String) (w : World σ) : World σ :=
  { w with clients := fun n => if n = name then none else w.clients n,
           trace := w.trace ++ [Effect.SetClientNil name] }

/-- The events sent so far. -/
def events : List Effect → List (String × List (String × String))
  | [] => []
  | Effect.event ty attrs :: rest => (ty, attrs) :: events rest
  | _ :: rest => events rest

/-! ## Library functions -/

/-- Largest Go `time.Duration`, in nanoseconds. -/
def maxDuration : Int := 2 ^ 63 - 1

/-- Smallest Go `time.Duration`, in nanoseconds. -/
def minDuration : Int := -(2 ^ 63)

/-- Go `time.Until(t)`, that is `t.Sub(now)`: the duration `t - now`, or the
largest (smallest) duration when the difference does not fit one. -/
def timeUntil (now t : Int) : Int :=
  if t - now > maxDuration then maxDuration
  else if t - now < minDuration then minDuration
  else t - now

/-- Go `cmp.Or` on two strings: the first that is not empty. -/
def cmpOr (a b : String) : String :=
  if a = "" then b else a

/-- Go `strconv.ParseBool`: the value, which is false when the text is not a
boolean, and whether the text is a boolean. -/
def ParseBool (str : String) : Bool × Bool :=
  if str ∈ ["1", "t", "T", "TRUE", "true", "True"] then (true, true)
  else if str ∈ ["0", "f", "F", "FALSE", "false", "False"] then (false, true)
  else (false, false)

/-- Go `strconv.FormatBool`. -/
def FormatBool (b : Bool) : String :=
  if b then "true" else "false"

/-- Go `strconv.Itoa`. -/
def Itoa (n : Int) : String :=
  toString n

/-- Go `strings.Join`. -/
def Join (elems : List String) (sep : String) : String :=
  sep.intercalate elems

/-- Modelled from the spec: `convertToInt` is declared outside these sources.
A numeric value converts to its integer; every other value, and a missing
entry, is the `InvalidValue` condition, an error wrapping `ErrInvalidValue`. -/
def convertToInt : Option Value → Except Error Int
  | some (Value.int n) => .ok n
  | some (Value.str s) => .error (Error.wrapf s Error.ErrInvalidValue)
  | some (Value.bool b) => .error (Error.wrapf (FormatBool b) Error.ErrInvalidValue)
  | none => .error (Error.wrapf "<nil>" Error.ErrInvalidValue)

/-- Modelled from the spec: `EntryConfig.Response` is declared outside these
sources.  It is the sanitized view of a configuration record: the fingerprint
of the token, never the token, with scopes, expiry, type and base URL. -/
def EntryConfig.Response (env : Env σ) (config : EntryConfig) : Response :=
  Response.Data
    [ ("base_url", config.BaseURL),
      ("token_sha1_hash", env.fingerprint config.Token),
      ("token_expires_at", env.formatRFC3339 config.TokenExpiresAt),
      ("scopes", Join config.Scopes ", "),
      ("type", config.GitlabType) ]

/-! ## path_config_rotate.go -/

/-- Lines 91-99 of `pathConfigTokenRotate`: the fields of the minted token
written into the configuration record, in the order of the assignments. -/
def foldEntryToken (config : EntryConfig) (entryToken : EntryToken) : EntryConfig :=
  let config1 : EntryConfig :=
    { config with
      Token := entryToken.Token, TokenId := entryToken.TokenID,
      Scopes := entryToken.Scopes }
  let config2 : EntryConfig :=
    match entryToken.ExpiresAt with
    | some t => { config1 with TokenExpiresAt := t }
    | none => config1
  match entryToken.CreatedAt with
  | some t => { config2 with TokenExpiresAt := t }
  | none => config2

/-- Lines 108-115 of `pathConfigTokenRotate`: the `config-token-rotate` event;
`expiresAt` and `createdAt` are the dereferenced pointers of `entryToken`. -/
def rotateEvent (env : Env σ) (name : String) (entryToken : EntryToken)
    (expiresAt createdAt : Int) : Effect :=
  Effect.event "config-token-rotate"
    [ ("path", env.PathConfigStorage ++ "/" ++ name),
      ("expires_at", env.formatRFC3339 expiresAt),
      ("created_at", env.formatRFC3339 createdAt),
      ("scopes", Join entryToken.Scopes ", "),
      ("token_id", Itoa entryToken.TokenID),
      ("name", entryToken.Name) ]

/-- Handler `pathConfigTokenRotate`; `name` is `data.Get("config_name")`. -/
def pathConfigTokenRotate (env : Env σ) (w : World σ) (name : String) :
    Outcome Result × World σ :=
  let w1 := w.record (Effect.getConfig name)
  match env.getConfig w1.storage name with
  | .error err => (.returned (none, some err), w1)
  | .ok none =>
    (.returned (some (Response.ErrorResponse Error.ErrBackendNotConfigured.Error), none), w1)
  | .ok (some config) =>
    let got := env.getClient w1.clients w1.storage name
    let w2 : World σ :=
      { w1 with clients := got.2, trace := w1.trace ++ [Effect.getClient name] }
    match got.1 with
    | .error err => (.returned (none, some err), w2)
    | .ok client =>
      let w3 := w2.record Effect.RotateCurrentToken
      match client.RotateCurrentToken with
      | .error err => (.returned (none, some err), w3)
      | .ok entryToken =>
        let config3 := foldEntryToken config entryToken
        let saved := env.saveConfig config3 w3.storage
        let w4 : World σ :=
          { w3 with storage := saved.2,
                    trace := w3.trace ++ [Effect.saveConfig config3 saved.1] }
        match saved.1 with
        | some err => (.returned (none, some err), w4)
        | none =>
          match entryToken.ExpiresAt with
          | none => (.panicked "nil pointer dereference: entryToken.ExpiresAt", w4)
          | some expiresAt =>
            match entryToken.CreatedAt with
            | none => (.panicked "nil pointer dereference: entryToken.CreatedAt", w4)
            | some createdAt =>
              let w5 := w4.record (rotateEvent env name entryToken expiresAt createdAt)
              (.returned (some (config3.Response env), none), SetClientNil name w5)

/-- Pre-check `checkAndRotateConfigToken`, run at time `now`. -/
def checkAndRotateConfigToken (env : Env σ) (now : Int) (w : World σ)
    (config : EntryConfig) : Outcome (Option Error) × World σ :=
  if timeUntil now config.TokenExpiresAt > config.AutoRotateBefore then
    (.returned none, w)
  else
    match pathConfigTokenRotate env w (cmpOr config.Name env.TypeConfigDefault) with
    | (.returned r, w1) => (.returned r.2, w1)
    | (.panicked what, w1) => (.panicked what, w1)

/-! ## secret_access_tokens.go -/

/-- The `switch tokenType` of `secretAccessTokenRevoke`: the remote call made
for the token type with the error it returns, `none` when no case matches; the
`token` entry is read, with an unchecked type assertion, only in the two
service-account cases. -/
def revokeSwitch (client : Client) (tokenType : TokenType) (tokenId : Int)
    (parentId : String) (token : Option String) : Outcome (Option (Effect × Option Error)) :=
  match tokenType with
  | TokenType.TokenTypePersonal =>
    .returned (some (Effect.RevokePersonalAccessToken tokenId,
      client.RevokePersonalAccessToken tokenId))
  | TokenType.TokenTypeProject =>
    .returned (some (Effect.RevokeProjectAccessToken tokenId parentId,
      client.RevokeProjectAccessToken tokenId parentId))
  | TokenType.TokenTypeGroup =>
    .returned (some (Effect.RevokeGroupAccessToken tokenId parentId,
      client.RevokeGroupAccessToken tokenId parentId))
  | TokenType.TokenTypeUserServiceAccount =>
    match token with
    | none => .panicked "interface conversion: token is nil, not string"
    | some tok =>
      .returned (some (Effect.RevokeUserServiceAccountAccessToken tok,
        client.RevokeUserServiceAccountAccessToken tok))
  | TokenType.TokenTypeGroupServiceAccount =>
    match token with
    | none => .panicked "interface conversion: token is nil, not string"
    | some tok =>
      .returned (some (Effect.RevokeGroupServiceAccountAccessToken tok,
        client.RevokeGroupServiceAccountAccessToken tok))
  | TokenType.TokenTypeUnknown => .returned none

/-- The `token-revoke` event and the final `return nil, nil` of
`secretAccessTokenRevoke`; the entries `path` and `name` are read with
unchecked type assertions while the attribute map is built. -/
def revokeEvent (w : World σ) (secret : Secret) (tokenId : Int) (tokenTypeValue : String)
    (gitlabRevokesToken : Bool) : Outcome Result × World σ :=
  match secret.InternalData.path with
  | none => (.panicked "interface conversion: path is nil, not string", w)
  | some path =>
    match secret.InternalData.name with
    | none => (.panicked "interface conversion: name is nil, not string", w)
    | some name =>
      (.returned (none, none), w.record (Effect.event "token-revoke"
        [ ("lease_id", secret.LeaseID),
          ("path", path),
          ("name", name),
          ("token_id", Itoa tokenId),
          ("token_type", tokenTypeValue),
          ("gitlab_revokes_token", FormatBool gitlabRevokesToken) ]))

/-- Handler `secretAccessTokenRevoke`; `w.storage` is `req.Storage` and
`reqSecret` is `req.Secret`. -/
def secretAccessTokenRevoke (env : Env σ) (w : World σ) (reqSecret : Option Secret) :
    Outcome Result × World σ :=
  match w.storage with
  | none => (.returned (none, some (Error.wrapf "storage" Error.ErrNilValue)), w)
  | some _ =>
    match reqSecret with
    | none => (.returned (none, some (Error.wrapf "secret" Error.ErrNilValue)), w)
    | some secret =>
      let configName := secret.InternalData.config_name.getD env.DefaultConfigName
      match convertToInt secret.InternalData.token_id with
      | .error err => (.returned (none, some (Error.wrapf "token_id" err)), w)
      | .ok tokenId =>
        match secret.InternalData.gitlab_revokes_token with
        | none =>
          (.panicked "interface conversion: gitlab_revokes_token is nil, not string", w)
        | some revokesValue =>
          let gitlabRevokesToken := (ParseBool revokesValue).1
          let vaultRevokesToken := !gitlabRevokesToken
          match secret.InternalData.parent_id with
          | none => (.panicked "interface conversion: parent_id is nil, not string", w)
          | some parentId =>
            match secret.InternalData.token_type with
            | none => (.panicked "interface conversion: token_type is nil, not string", w)
            | some tokenTypeValue =>
              let tokenType := (TokenTypeParse tokenTypeValue).1
              if vaultRevokesToken then
                let got := env.getClient w.clients w.storage configName
                let w1 : World σ :=
                  { w with clients := got.2,
                           trace := w.trace ++ [Effect.getClient configName] }
                match got.1 with
                | .error err =>
                  (.returned (none,
                    some (Error.wrapf "revoke token cannot get client" err)), w1)
                | .ok client =>
                  match revokeSwitch client tokenType tokenId parentId
                      secret.InternalData.token with
                  | .panicked what => (.panicked what, w1)
                  | .returned none =>
                    revokeEvent w1 secret tokenId tokenTypeValue gitlabRevokesToken
                  | .returned (some (call, none)) =>
                    revokeEvent (w1.record call) secret tokenId tokenTypeValue
                      gitlabRevokesToken
                  | .returned (some (call, some err)) =>
                    if !Error.Is err Error.ErrAccessTokenNotFound then
                      (.returned (some (Response.ErrorResponse "failed to revoke token"),
                        some (Error.wrapf "revoke token" err)), w1.record call)
                    else
                      revokeEvent (w1.record call) secret tokenId tokenTypeValue
                        gitlabRevokesToken
              else
                revokeEvent w secret tokenId tokenTypeValue gitlabRevokesToken

/-- The remote revoke calls in a trace. -/
def revokeCalls : List Effect → List Effect
  | [] => []
  | Effect.RevokePersonalAccessToken t :: rest =>
    Effect.RevokePersonalAccessToken t :: revokeCalls rest
  | Effect.RevokeProjectAccessToken t p :: rest =>
    Effect.RevokeProjectAccessToken t p :: revokeCalls rest
  | Effect.RevokeGroupAccessToken t p :: rest =>
    Effect.RevokeGroupAccessToken t p :: revokeCalls rest
  | Effect.RevokeUserServiceAccountAccessToken t :: rest =>
    Effect.RevokeUserServiceAccountAccessToken t :: revokeCalls rest
  | Effect.RevokeGroupServiceAccountAccessToken t :: rest =>
    Effect.RevokeGroupServiceAccountAccessToken t :: revokeCalls rest
  | _ :: rest => revokeCalls rest

/-- The dispatch table of the specification (section 4.4, step 6): the remote
call that belongs to a token type. -/
def claimedRevokeCall (tokenType : TokenType) (tokenId : Int) (parentId token : String) :
    Option Effect :=
  match tokenType with
  | TokenType.TokenTypePersonal => some (Effect.RevokePersonalAccessToken tokenId)
  | TokenType.TokenTypeProject => some (Effect.RevokeProjectAccessToken tokenId parentId)
  | TokenType.TokenTypeGroup => some (Effect.RevokeGroupAccessToken tokenId parentId)
  | TokenType.TokenTypeUserServiceAccount =>
    some (Effect.RevokeUserServiceAccountAccessToken token)
  | TokenType.TokenTypeGroupServiceAccount =>
    some (Effect.RevokeGroupServiceAccountAccessToken token)
  | TokenType.TokenTypeUnknown => none

/-! ## Observations on traces -/

/-- The world a complete rotation leaves: the record saved, the cache entry of
`name` cleared, and the six calls in the order the handler makes them. -/
def rotatedWorld (env : Env σ) (w : World σ) (name : String) (config : EntryConfig)
    (entryToken : EntryToken) (expiresAt createdAt : Int) : World σ :=
  { storage := (env.saveConfig (foldEntryToken config entryToken) w.storage).2,
    clients := fun n =>
      if n = name then none else (env.getClient w.clients w.storage name).2 n,
    trace := w.trace ++
      [ Effect.getConfig name, Effect.getClient name, Effect.RotateCurrentToken,
        Effect.saveConfig (foldEntryToken config entryToken) none,
        rotateEvent env name entryToken expiresAt createdAt,
        Effect.SetClientNil name ] }

/-- Whether the call is a `saveConfig` that succeeded. -/
def isSaved : Effect → Bool
  | Effect.saveConfig _ none => true
  | _ => false

/-- Whether the call is the sending of an event. -/
def isEvent : Effect → Bool
  | Effect.event _ _ => true
  | _ => false

/-- Whether the call is `SetClient(nil, name)`. -/
def isSetClientNil : Effect → Bool
  | Effect.SetClientNil _ => true
  | _ => false

/-- Whether a call satisfying `q` comes after the first call satisfying `p`. -/
def comesBefore (p q : Effect → Bool) (trace : List Effect) : Bool :=
  ((trace.dropWhile (fun e => !p e)).drop 1).any q

/-- The keys of an attribute map. -/
def keys (attrs : List (String × String)) : List String :=
  attrs.map Prod.fst

/-- The data fields of a response; an error response has none. -/
def Response.fields : Response → List (String × String)
  | Response.Data fields => fields
  | Response.ErrorResponse _ => []

/-! ## Example environment -/

/-- A client whose rotation returns `rotated` and whose revoke calls all
return `revoked`. -/
def exampleClient (rotated : Except Error EntryToken) (revoked : Option Error) : Client :=
  { RotateCurrentToken := rotated,
    RevokePersonalAccessToken := fun _ => revoked,
    RevokeProjectAccessToken := fun _ _ => revoked,
    RevokeGroupAccessToken := fun _ _ => revoked,
    RevokeUserServiceAccountAccessToken := fun _ => revoked,
    RevokeGroupServiceAccountAccessToken := fun _ => revoked }

/-- Modelled from the spec: an environment over a store that is a list of
records.  `getConfig` loads the record of a name (absent is not an error),
`saveConfig` replaces it, and `getClient` is the memoization through the Client
Cache of sections 4.2 and 4.3: the cached client, else `client`, constructed and
stored in the cache. -/
def exampleEnv (client : Client) : Env (List EntryConfig) :=
  { getConfig := fun storage name =>
      match storage with
      | none => .error Error.ErrNilValue
      | some records => .ok (records.find? (fun c => c.Name == name)),
    saveConfig := fun config storage =>
      match storage with
      | none => (some Error.ErrNilValue, none)
      | some records =>
        (none, some (config :: records.filter (fun c => c.Name != config.Name))),
    getClient := fun cache _ name =>
      match cache name with
      | some cached => (.ok cached, cache)
      | none => (.ok client, fun n => if n = name then some client else cache n),
    formatRFC3339 := fun t => toString t,
    fingerprint := fun token => "sha1-of-" ++ toString token.length,
    PathConfigStorage := "config",
    DefaultConfigName := "default",
    TypeConfigDefault := "default" }

/-- One hour, in nanoseconds. -/
def hour : Int := 3600000000000

/-- The current time of the examples, in nanoseconds since the epoch. -/
def exampleNow : Int := 1700000000000000000

/-- The configuration of the scenario: the token expires in one hour and is to
be rotated 24 hours before its expiry. -/
def exampleConfig : EntryConfig :=
  { Name := "default", Token := "glpat-old", TokenId := 1, Scopes := ["api"],
    TokenExpiresAt := exampleNow + hour, AutoRotateBefore := 24 * hour,
    BaseURL := "https://gitlab.example", GitlabType := "self-managed" }

/-- The minted credential of the scenario: created now, expiring in 30 days. -/
def exampleToken : EntryToken :=
  { Token := "glpat-new", TokenID := 7, Name := "vault-admin", Scopes := ["api"],
    CreatedAt := some exampleNow, ExpiresAt := some (exampleNow + 720 * hour) }

/-- A world with the scenario's configuration stored and an empty client cache. -/
def exampleWorld : World (List EntryConfig) :=
  { storage := some [exampleConfig], clients := fun _ => none, trace := [] }

/-- Metadata of a leased secret with all entries set. -/
def exampleData (tokenType : String) (revokes : String) : InternalData :=
  { config_name := some "default", token_id := some (Value.int 42),
    gitlab_revokes_token := some revokes, parent_id := some "grp-7",
    token_type := some tokenType, token := some "glpat-xyz",
    path := some "example", name := some "gat-token" }

/-- A leased secret with all metadata entries set. -/
def exampleSecret (tokenType : String) (revokes : String) : Secret :=
  { LeaseID := "lease-1", InternalData := exampleData tokenType revokes }

/-- The metadata of the group scenario of the specification: only `token_type`,
`token_id`, `parent_id` and `gitlab_revokes_token` are set. -/
def groupScenario : Secret :=
  { LeaseID := "lease-1",
    InternalData :=
      { config_name := none, token_id := some (Value.int 42),
        gitlab_revokes_token := some "false", parent_id := some "grp-7",
        token_type := some "group", token := none, path := none, name := none } }

/-- A personal token whose metadata has every entry the handler reads but
`parent_id`; vault is to revoke it. -/
def personalWithoutParent (revokes : String) : Secret :=
  { LeaseID := "lease-2",
    InternalData :=
      { config_name := none, token_id := some (Value.int 42),
        gitlab_revokes_token := some revokes, parent_id := none,
        token_type := some "personal", token := none,
        path := some "example", name := some "pat-token" } }

/-- The secret of the test `token_id invalid value`: only `token_id` is set, to
a text that is no number. -/
def invalidTokenId : Secret :=
  { LeaseID := "",
    InternalData :=
      { config_name := none, token_id := some (Value.str "asdf"),
        gitlab_revokes_token := none, parent_id := none, token_type := none,
        token := none, path := none, name := none } }

/-- A minted credential whose name is the same text as its raw value. -/
def tokenNamedAsValue : EntryToken :=
  { exampleToken with Name := exampleToken.Token }

/-- The scenario's world with `client` already in the cache of every name. -/
def worldCaching (client : Client) : World (List EntryConfig) :=
  { exampleWorld with clients := fun _ => some client }

/-- A record that is to be rotated the largest duration before its expiry and
whose token expires `2 ^ 63` nanoseconds after `exampleNow`, one nanosecond more
than the largest duration. -/
def farExpiryConfig : EntryConfig :=
  { exampleConfig with
    TokenExpiresAt := exampleNow + 2 ^ 63, AutoRotateBefore := maxDuration }

/-- A world with `farExpiryConfig` stored and an empty client cache. -/
def farExpiryWorld : World (List EntryConfig) :=
  { storage := some [farExpiryConfig], clients := fun _ => none, trace := [] }

/-- The metadata of the service-account scenario of the specification: only
`token_type`, `token` and `gitlab_revokes_token` are set. -/
def serviceAccountScenario : Secret :=
  { LeaseID := "lease-3",
    InternalData :=
      { config_name := none, token_id := none,
        gitlab_revokes_token := some "false", parent_id := none,
        token_type := some "user_service_account", token := some "glpat-xyz",
        path := none, name := none } }

/-- The service-account scenario with `token_id` and `parent_id` set to
`tokenId` and `parentId`. -/
def serviceAccountWith (tokenId : Option Value) (parentId : Option String) : Secret :=
  { serviceAccountScenario with
    InternalData :=
      { serviceAccountScenario.InternalData with
        token_id := tokenId, parent_id := parentId } }

/-- The minted credential of the scenario with a nil `ExpiresAt`. -/
def tokenWithoutExpiry : EntryToken :=
  { exampleToken with ExpiresAt := none }

/-- The minted credential of the scenario with a nil `CreatedAt`. -/
def tokenWithoutCreation : EntryToken :=
  { exampleToken with CreatedAt := none }

/-! ## Lemmas on traces and errors -/

theorem revokeCalls_append (a b : List Effect) :
    revokeCalls (a ++ b) = revokeCalls a ++ revokeCalls b := by
  induction a with
  | nil => rfl
  | cons e rest ih => cases e <;> simp [revokeCalls, ih]

theorem events_append (a b : List Effect) : events (a ++ b) = events a ++ events b := by
  induction a with
  | nil => rfl
  | cons e rest ih => cases e <;> simp [events, ih]

theorem errorIs_refl (err : Error) : Error.Is err err = true := by
  cases err <;> simp [Error.Is]

theorem errorIs_wrapf (msg : String) (err target : Error)
    (h : Error.Is err target = true) :
    Error.Is (Error.wrapf msg err) target = true := by
  simp [Error.Is, h]

/-! ## Lemmas on `secretAccessTokenRevoke` -/

theorem revokeEvent_revokeCalls (w : World σ) (secret : Secret) (tokenId : Int)
    (tokenTypeValue : String) (gitlabRevokesToken : Bool) :
    revokeCalls (revokeEvent w secret tokenId tokenTypeValue gitlabRevokesToken).2.trace =
      revokeCalls w.trace := by
  unfold revokeEvent
  cases secret.InternalData.path with
  | none => rfl
  | some path =>
    cases secret.InternalData.name with
    | none => rfl
    | some name => simp [World.record, revokeCalls_append, revokeCalls]

theorem revokeEvent_complete (w : World σ) (secret : Secret) (tokenId : Int)
    (tokenTypeValue : String) (gitlabRevokesToken : Bool) (path name : String)
    (hpath : secret.InternalData.path = some path)
    (hname : secret.InternalData.name = some name) :
    revokeEvent w secret tokenId tokenTypeValue gitlabRevokesToken =
      (.returned (none, none), w.record (Effect.event "token-revoke"
        [ ("lease_id", secret.LeaseID),
          ("path", path),
          ("name", name),
          ("token_id", Itoa tokenId),
          ("token_type", tokenTypeValue),
          ("gitlab_revokes_token", FormatBool gitlabRevokesToken) ])) := by
  simp [revokeEvent, hpath, hname]

theorem revokeSwitch_claimed (client : Client) (tokenType : TokenType) (tokenId : Int)
    (parentId tok : String) (token : Option String)
    (hknown : tokenType ≠ TokenType.TokenTypeUnknown)
    (htoken : tokenType = TokenType.TokenTypeUserServiceAccount ∨
      tokenType = TokenType.TokenTypeGroupServiceAccount → token = some tok) :
    ∃ call res, claimedRevokeCall tokenType tokenId parentId tok = some call ∧
      revokeSwitch client tokenType tokenId parentId token = .returned (some (call, res)) := by
  cases tokenType with
  | TokenTypePersonal => exact ⟨_, _, rfl, rfl⟩
  | TokenTypeProject => exact ⟨_, _, rfl, rfl⟩
  | TokenTypeGroup => exact ⟨_, _, rfl, rfl⟩
  | TokenTypeUserServiceAccount =>
    rw [htoken (Or.inl rfl)]
    exact ⟨_, _, rfl, rfl⟩
  | TokenTypeGroupServiceAccount =>
    rw [htoken (Or.inr rfl)]
    exact ⟨_, _, rfl, rfl⟩
  | TokenTypeUnknown => exact absurd rfl hknown

theorem revokeSwitch_isCall (client : Client) (tokenType : TokenType) (tokenId : Int)
    (parentId : String) (token : Option String) (call : Effect) (res : Option Error)
    (h : revokeSwitch client tokenType tokenId parentId token = .returned (some (call, res))) :
    revokeCalls [call] = [call] := by
  cases tokenType <;> cases token <;> simp [revokeSwitch] at h <;>
    (obtain ⟨rfl, _⟩ := h; rfl)

/-- The run of `secretAccessTokenRevoke` once the metadata is read, the client is
obtained and the switch has made `call` with result `res`. -/
theorem revoke_after_call (env : Env σ) (w : World σ) (secret : Secret) (tokenId : Int)
    (revokesValue parentId tokenTypeValue : String) (client : Client) (call : Effect)
    (res : Option Error)
    (hstorage : w.storage ≠ none)
    (hid : convertToInt secret.InternalData.token_id = .ok tokenId)
    (hrevokes : secret.InternalData.gitlab_revokes_token = some revokesValue)
    (hvault : (ParseBool revokesValue).1 = false)
    (hparent : secret.InternalData.parent_id = some parentId)
    (htype : secret.InternalData.token_type = some tokenTypeValue)
    (hclient : (env.getClient w.clients w.storage
      (secret.InternalData.config_name.getD env.DefaultConfigName)).1 = .ok client)
    (hcall : revokeSwitch client (TokenTypeParse tokenTypeValue).1 tokenId parentId
      secret.InternalData.token = .returned (some (call, res))) :
    secretAccessTokenRevoke env w (some secret) =
      let w1 : World σ :=
        { storage := w.storage,
          clients := (env.getClient w.clients w.storage
            (secret.InternalData.config_name.getD env.DefaultConfigName)).2,
          trace := w.trace ++
            [ Effect.getClient (secret.InternalData.config_name.getD env.DefaultConfigName),
              call ] }
      if res.all (fun err => Error.Is err Error.ErrAccessTokenNotFound) then
        revokeEvent w1 secret tokenId tokenTypeValue false
      else
        (.returned (some (Response.ErrorResponse "failed to revoke token"),
          some (Error.wrapf "revoke token" (res.getD Error.ErrNilValue))), w1) := by
  unfold secretAccessTokenRevoke
  split
  · rename_i hnil
    exact absurd hnil hstorage
  · cases res with
    | none =>
      simp [hid, hrevokes, hvault, hparent, htype, hclient, hcall, World.record]
    | some err =>
      cases hfound : Error.Is err Error.ErrAccessTokenNotFound <;>
        simp [hid, hrevokes, hvault, hparent, htype, hclient, hcall, World.record, hfound]

theorem revokeSwitch_events (client : Client) (tokenType : TokenType) (tokenId : Int)
    (parentId : String) (token : Option String) (call : Effect) (res : Option Error)
    (h : revokeSwitch client tokenType tokenId parentId token = .returned (some (call, res))) :
    events [call] = [] := by
  cases tokenType <;> cases token <;> simp [revokeSwitch] at h <;>
    (obtain ⟨rfl, _⟩ := h; rfl)

/-! ## Revocation: dispatch, error handling, validation -/

/-- C1 (amended): for every revoke request with a storage and a secret whose
metadata has a numeric `token_id`, a `gitlab_revokes_token` entry parsing to
false, a `parent_id` entry (whatever the token type), a `token_type` entry that
is one of the five token types, and a `token` entry when that type is a
service-account type, and for which the client is obtained,
`secretAccessTokenRevoke` makes exactly one remote revoke call: the one the
dispatch table of the specification gives for the token type. -/
theorem revoke_dispatch_by_variant (env : Env σ) (w : World σ) (secret : Secret)
    (tokenId : Int) (revokesValue parentId tokenTypeValue tok : String) (client : Client)
    (hstorage : w.storage ≠ none)
    (hid : secret.InternalData.token_id = some (Value.int tokenId))
    (hrevokes : secret.InternalData.gitlab_revokes_token = some revokesValue)
    (hvault : (ParseBool revokesValue).1 = false)
    (hparent : secret.InternalData.parent_id = some parentId)
    (htype : secret.InternalData.token_type = some tokenTypeValue)
    (hvariant : (TokenTypeParse tokenTypeValue).1 ≠ TokenType.TokenTypeUnknown)
    (htoken : (TokenTypeParse tokenTypeValue).1 = TokenType.TokenTypeUserServiceAccount ∨
      (TokenTypeParse tokenTypeValue).1 = TokenType.TokenTypeGroupServiceAccount →
      secret.InternalData.token = some tok)
    (hclient : (env.getClient w.clients w.storage
      (secret.InternalData.config_name.getD env.DefaultConfigName)).1 = .ok client) :
    ∃ call, claimedRevokeCall (TokenTypeParse tokenTypeValue).1 tokenId parentId tok =
        some call ∧
      revokeCalls (secretAccessTokenRevoke env w (some secret)).2.trace =
        revokeCalls w.trace ++ [call] := by
  obtain ⟨call, res, hclaimed, hswitch⟩ :=
    revokeSwitch_claimed client (TokenTypeParse tokenTypeValue).1 tokenId parentId tok
      secret.InternalData.token hvariant htoken
  have hconv : convertToInt secret.InternalData.token_id = .ok tokenId := by
    rw [hid]; rfl
  have hcall := revokeSwitch_isCall client _ tokenId parentId _ call res hswitch
  refine ⟨call, hclaimed, ?_⟩
  rw [revoke_after_call env w secret tokenId revokesValue parentId tokenTypeValue client
    call res hstorage hconv hrevokes hvault hparent htype hclient hswitch]
  dsimp only
  split
  · rw [revokeEvent_revokeCalls]
    simp only [revokeCalls_append, revokeCalls, hcall, List.append_nil]
  · simp only [revokeCalls_append, revokeCalls, hcall, List.append_nil]

/-- The group scenario of the specification: the metadata with token type
`group`, token id 42, parent `grp-7` and `gitlab_revokes_token` false makes the
single remote call `RevokeGroupAccessToken(42, "grp-7")`. -/
theorem revoke_dispatch_group_scenario :
    revokeCalls (secretAccessTokenRevoke (exampleEnv (exampleClient (.ok exampleToken) none))
      exampleWorld (some groupScenario)).2.trace =
      [Effect.RevokeGroupAccessToken 42 "grp-7"] := by
  obtain ⟨call, hclaimed, htrace⟩ :=
    revoke_dispatch_by_variant (exampleEnv (exampleClient (.ok exampleToken) none))
      exampleWorld groupScenario 42 "false" "grp-7" "group" ""
      (exampleClient (.ok exampleToken) none)
      (by decide) rfl rfl (by decide) rfl rfl (by decide) (by decide) rfl
  have hgroup : claimedRevokeCall (TokenTypeParse "group").1 42 "grp-7" "" =
      some (Effect.RevokeGroupAccessToken 42 "grp-7") := by decide
  rw [hgroup] at hclaimed
  rw [htrace, ← Option.some.inj hclaimed]
  rfl

/-- A personal token with a storage, a secret, a numeric token id,
`gitlab_revokes_token` false, an obtainable client and a token type among the
five, yet no `parent_id` entry: the handler panics on the unchecked type
assertion of `parent_id` and makes no remote revoke call. -/
theorem revoke_personal_without_parent_id :
    exampleWorld.storage ≠ none ∧
    (personalWithoutParent "false").InternalData.token_id = some (Value.int 42) ∧
    (ParseBool "false").1 = false ∧
    TokenTypeParse "personal" = (TokenType.TokenTypePersonal, true) ∧
    ((exampleEnv (exampleClient (.ok exampleToken) none)).getClient exampleWorld.clients
      exampleWorld.storage "default").1.toBool = true ∧
    (secretAccessTokenRevoke (exampleEnv (exampleClient (.ok exampleToken) none))
      exampleWorld (some (personalWithoutParent "false"))).1 =
      .panicked "interface conversion: parent_id is nil, not string" ∧
    revokeCalls (secretAccessTokenRevoke (exampleEnv (exampleClient (.ok exampleToken) none))
      exampleWorld (some (personalWithoutParent "false"))).2.trace = [] := by
  refine ⟨by decide, rfl, by decide, by decide, rfl, by decide, by decide⟩

/-- C2: for every valid revoke request (storage, secret, numeric `token_id`,
all metadata entries present, client obtained) in which vault revokes the token
and the remote revoke call made for the token type returns an error `err`: if
`err` is or wraps `ErrAccessTokenNotFound`, the handler returns no response and
no error and sends exactly one `token-revoke` event; otherwise it returns the
error response "failed to revoke token" with an error wrapping `err`, and sends
no event. -/
theorem revoke_absorbs_not_found (env : Env σ) (w : World σ) (secret : Secret)
    (tokenId : Int) (revokesValue parentId tokenTypeValue path name : String)
    (client : Client) (call : Effect) (err : Error)
    (hstorage : w.storage ≠ none)
    (hid : secret.InternalData.token_id = some (Value.int tokenId))
    (hrevokes : secret.InternalData.gitlab_revokes_token = some revokesValue)
    (hvault : (ParseBool revokesValue).1 = false)
    (hparent : secret.InternalData.parent_id = some parentId)
    (htype : secret.InternalData.token_type = some tokenTypeValue)
    (hpath : secret.InternalData.path = some path)
    (hname : secret.InternalData.name = some name)
    (hclient : (env.getClient w.clients w.storage
      (secret.InternalData.config_name.getD env.DefaultConfigName)).1 = .ok client)
    (hcall : revokeSwitch client (TokenTypeParse tokenTypeValue).1 tokenId parentId
      secret.InternalData.token = .returned (some (call, some err))) :
    (Error.Is err Error.ErrAccessTokenNotFound = true →
      (secretAccessTokenRevoke env w (some secret)).1 = .returned (none, none) ∧
      events (secretAccessTokenRevoke env w (some secret)).2.trace =
        events w.trace ++
          [("token-revoke",
            [ ("lease_id", secret.LeaseID), ("path", path), ("name", name),
              ("token_id", Itoa tokenId), ("token_type", tokenTypeValue),
              ("gitlab_revokes_token", "false") ])]) ∧
    (Error.Is err Error.ErrAccessTokenNotFound = false →
      (secretAccessTokenRevoke env w (some secret)).1 =
        .returned (some (Response.ErrorResponse "failed to revoke token"),
          some (Error.wrapf "revoke token" err)) ∧
      Error.Is (Error.wrapf "revoke token" err) err = true ∧
      events (secretAccessTokenRevoke env w (some secret)).2.trace = events w.trace) := by
  have hconv : convertToInt secret.InternalData.token_id = .ok tokenId := by
    rw [hid]; rfl
  have hnoevent := revokeSwitch_events client _ tokenId parentId _ call (some err) hcall
  have hrun := revoke_after_call env w secret tokenId revokesValue parentId tokenTypeValue
    client call (some err) hstorage hconv hrevokes hvault hparent htype hclient hcall
  constructor
  · intro hfound
    rw [hrun]
    simp only [Option.all_some, hfound, if_true]
    rw [revokeEvent_complete _ secret tokenId tokenTypeValue false path name hpath hname]
    refine ⟨rfl, ?_⟩
    have hcons : events [Effect.getClient
        (secret.InternalData.config_name.getD env.DefaultConfigName), call] = [] := by
      simpa [events] using hnoevent
    simp only [World.record, events_append, hcons, List.append_nil]
    rfl
  · intro hfound
    rw [hrun]
    simp only [Option.all_some, hfound]
    refine ⟨rfl, errorIs_wrapf _ _ _ (errorIs_refl err), ?_⟩
    have hcons : events [Effect.getClient
        (secret.InternalData.config_name.getD env.DefaultConfigName), call] = [] := by
      simpa [events] using hnoevent
    simp [events_append, hcons]

/-- Revoking a group token whose remote call reports `ErrAccessTokenNotFound`
succeeds and sends the event; with another remote error it fails with the error
response and sends no event. -/
theorem revoke_absorbs_not_found_example :
    ((secretAccessTokenRevoke
        (exampleEnv (exampleClient (.ok exampleToken) (some Error.ErrAccessTokenNotFound)))
        exampleWorld (some (exampleSecret "group" "false"))).1 = .returned (none, none) ∧
      events (secretAccessTokenRevoke
        (exampleEnv (exampleClient (.ok exampleToken) (some Error.ErrAccessTokenNotFound)))
        exampleWorld (some (exampleSecret "group" "false"))).2.trace =
        events exampleWorld.trace ++
          [("token-revoke",
            [ ("lease_id", "lease-1"), ("path", "example"), ("name", "gat-token"),
              ("token_id", Itoa 42), ("token_type", "group"),
              ("gitlab_revokes_token", "false") ])]) ∧
    ((secretAccessTokenRevoke
        (exampleEnv (exampleClient (.ok exampleToken) (some (Error.other "500"))))
        exampleWorld (some (exampleSecret "group" "false"))).1 =
        .returned (some (Response.ErrorResponse "failed to revoke token"),
          some (Error.wrapf "revoke token" (Error.other "500"))) ∧
      Error.Is (Error.wrapf "revoke token" (Error.other "500")) (Error.other "500") = true ∧
      events (secretAccessTokenRevoke
        (exampleEnv (exampleClient (.ok exampleToken) (some (Error.other "500"))))
        exampleWorld (some (exampleSecret "group" "false"))).2.trace =
        events exampleWorld.trace) :=
  ⟨(revoke_absorbs_not_found
      (exampleEnv (exampleClient (.ok exampleToken) (some Error.ErrAccessTokenNotFound)))
      exampleWorld (exampleSecret "group" "false") 42 "false" "grp-7" "group" "example"
      "gat-token" (exampleClient (.ok exampleToken) (some Error.ErrAccessTokenNotFound))
      (Effect.RevokeGroupAccessToken 42 "grp-7") Error.ErrAccessTokenNotFound
      (by decide) rfl rfl (by decide) rfl rfl rfl rfl rfl rfl).1 (by decide),
   (revoke_absorbs_not_found
      (exampleEnv (exampleClient (.ok exampleToken) (some (Error.other "500"))))
      exampleWorld (exampleSecret "group" "false") 42 "false" "grp-7" "group" "example"
      "gat-token" (exampleClient (.ok exampleToken) (some (Error.other "500")))
      (Effect.RevokeGroupAccessToken 42 "grp-7") (Error.other "500")
      (by decide) rfl rfl (by decide) rfl rfl rfl rfl rfl rfl).2 (by decide)⟩

/-- C3 (amended): for every revoke request with a storage and a secret whose
metadata has a numeric `token_id`, a `gitlab_revokes_token` entry parsing to
true and the entries `parent_id`, `token_type` (any text), `path` and `name`,
`secretAccessTokenRevoke` returns no response and no error and its only call is
the sending of one `token-revoke` event carrying lease id, path, name, token id,
token type and `gitlab_revokes_token` = "true": no client is obtained, no remote
revoke call is made, storage and client cache are untouched. -/
theorem revoke_skipped_when_gitlab_revokes (env : Env σ) (w : World σ) (secret : Secret)
    (tokenId : Int) (revokesValue parentId tokenTypeValue path name : String)
    (hstorage : w.storage ≠ none)
    (hid : secret.InternalData.token_id = some (Value.int tokenId))
    (hrevokes : secret.InternalData.gitlab_revokes_token = some revokesValue)
    (hgitlab : (ParseBool revokesValue).1 = true)
    (hparent : secret.InternalData.parent_id = some parentId)
    (htype : secret.InternalData.token_type = some tokenTypeValue)
    (hpath : secret.InternalData.path = some path)
    (hname : secret.InternalData.name = some name) :
    secretAccessTokenRevoke env w (some secret) =
      (.returned (none, none),
        { storage := w.storage, clients := w.clients,
          trace := w.trace ++ [Effect.event "token-revoke"
            [ ("lease_id", secret.LeaseID), ("path", path), ("name", name),
              ("token_id", Itoa tokenId), ("token_type", tokenTypeValue),
              ("gitlab_revokes_token", "true") ]] }) := by
  unfold secretAccessTokenRevoke
  split
  · rename_i hnil
    exact absurd hnil hstorage
  · simp [hid, convertToInt, hrevokes, hgitlab, hparent, htype, revokeEvent, hpath, hname,
      World.record, FormatBool]

/-- A group token that GitLab revokes itself: the handler obtains no client,
makes no remote call and sends the one `token-revoke` event. -/
theorem revoke_skipped_example :
    secretAccessTokenRevoke (exampleEnv (exampleClient (.ok exampleToken) none))
      exampleWorld (some (exampleSecret "group" "true")) =
      (.returned (none, none),
        { storage := exampleWorld.storage, clients := exampleWorld.clients,
          trace := exampleWorld.trace ++ [Effect.event "token-revoke"
            [ ("lease_id", "lease-1"), ("path", "example"), ("name", "gat-token"),
              ("token_id", Itoa 42), ("token_type", "group"),
              ("gitlab_revokes_token", "true") ]] }) :=
  revoke_skipped_when_gitlab_revokes (exampleEnv (exampleClient (.ok exampleToken) none))
    exampleWorld (exampleSecret "group" "true") 42 "true" "grp-7" "group" "example"
    "gat-token" (by decide) rfl rfl (by decide) rfl rfl rfl rfl

/-- A personal token that GitLab revokes itself, with a storage, a secret, a
numeric token id and the entries `token_type`, `path` and `name`, yet no
`parent_id` entry: the handler panics and sends no event. -/
theorem revoke_skipped_without_parent_id :
    exampleWorld.storage ≠ none ∧
    (personalWithoutParent "true").InternalData.token_id = some (Value.int 42) ∧
    (ParseBool "true").1 = true ∧
    (secretAccessTokenRevoke (exampleEnv (exampleClient (.ok exampleToken) none))
      exampleWorld (some (personalWithoutParent "true"))).1 =
      .panicked "interface conversion: parent_id is nil, not string" ∧
    events (secretAccessTokenRevoke (exampleEnv (exampleClient (.ok exampleToken) none))
      exampleWorld (some (personalWithoutParent "true"))).2.trace = [] := by
  refine ⟨by decide, rfl, by decide, by decide, by decide⟩

/-- C10: for every revoke request whose storage is nil, or whose secret is nil,
or whose `token_id` entry is not numeric, `secretAccessTokenRevoke` returns a
nil response and an error, leaving the world as it was (no store access, no
client obtained, no remote call, no event); the error wraps `ErrNilValue` when
the storage or the secret is nil and `ErrInvalidValue` otherwise. -/
theorem revoke_fails_fast (env : Env σ) (w : World σ) (reqSecret : Option Secret)
    (h : w.storage = none ∨ reqSecret = none ∨
      ∃ secret, reqSecret = some secret ∧
        ∀ n, secret.InternalData.token_id ≠ some (Value.int n)) :
    ∃ err, secretAccessTokenRevoke env w reqSecret = (.returned (none, some err), w) ∧
      (w.storage = none ∨ reqSecret = none → Error.Is err Error.ErrNilValue = true) ∧
      (w.storage ≠ none → reqSecret ≠ none → Error.Is err Error.ErrInvalidValue = true) := by
  cases hst : w.storage with
  | none =>
    exact ⟨Error.wrapf "storage" Error.ErrNilValue,
      by simp [secretAccessTokenRevoke, hst], fun _ => by decide, fun hne => absurd rfl hne⟩
  | some st =>
    cases reqSecret with
    | none =>
      exact ⟨Error.wrapf "secret" Error.ErrNilValue,
        by simp [secretAccessTokenRevoke, hst], fun _ => by decide,
        fun _ hne => absurd rfl hne⟩
    | some secret =>
      have hnot : ∀ n, secret.InternalData.token_id ≠ some (Value.int n) := by
        rcases h with h | h | ⟨s, hs, hn⟩
        · rw [hst] at h; cases h
        · cases h
        · cases hs; exact hn
      have hconv : ∃ inner, convertToInt secret.InternalData.token_id =
          .error (Error.wrapf inner Error.ErrInvalidValue) := by
        cases hv : secret.InternalData.token_id with
        | none => exact ⟨_, rfl⟩
        | some v =>
          cases v with
          | int n => exact absurd hv (hnot n)
          | str s => exact ⟨_, rfl⟩
          | bool b => exact ⟨_, rfl⟩
      obtain ⟨inner, hinner⟩ := hconv
      refine ⟨Error.wrapf "token_id" (Error.wrapf inner Error.ErrInvalidValue), ?_, ?_, ?_⟩
      · simp [secretAccessTokenRevoke, hst, hinner]
      · intro hnil
        rcases hnil with hnil | hnil
        · cases hnil
        · cases hnil
      · intro _ _
        exact errorIs_wrapf _ _ _ (errorIs_wrapf _ _ _ (errorIs_refl _))

/-- The three requests of the test `TestSecretAccessTokenRevokeToken`: nil
storage, nil secret, and `token_id` set to "asdf". -/
theorem revoke_fails_fast_examples :
    (∃ err, secretAccessTokenRevoke (exampleEnv (exampleClient (.ok exampleToken) none))
        { exampleWorld with storage := none } none =
          (.returned (none, some err), { exampleWorld with storage := none }) ∧
        Error.Is err Error.ErrNilValue = true) ∧
    (∃ err, secretAccessTokenRevoke (exampleEnv (exampleClient (.ok exampleToken) none))
        exampleWorld none = (.returned (none, some err), exampleWorld) ∧
        Error.Is err Error.ErrNilValue = true) ∧
    (∃ err, secretAccessTokenRevoke (exampleEnv (exampleClient (.ok exampleToken) none))
        exampleWorld (some invalidTokenId) = (.returned (none, some err), exampleWorld) ∧
        Error.Is err Error.ErrInvalidValue = true) := by
  refine ⟨?_, ?_, ?_⟩
  · obtain ⟨err, hrun, hnil, _⟩ :=
      revoke_fails_fast (exampleEnv (exampleClient (.ok exampleToken) none))
        { exampleWorld with storage := none } none (Or.inl rfl)
    exact ⟨err, hrun, hnil (Or.inl rfl)⟩
  · obtain ⟨err, hrun, hnil, _⟩ :=
      revoke_fails_fast (exampleEnv (exampleClient (.ok exampleToken) none))
        exampleWorld none (Or.inr (Or.inl rfl))
    exact ⟨err, hrun, hnil (Or.inr rfl)⟩
  · obtain ⟨err, hrun, _, hinvalid⟩ :=
      revoke_fails_fast (exampleEnv (exampleClient (.ok exampleToken) none))
        exampleWorld (some invalidTokenId)
        (Or.inr (Or.inr ⟨invalidTokenId, rfl, fun n hn => by cases hn⟩))
    exact ⟨err, hrun, hinvalid (by decide) (by simp)⟩

/-! ## Lemmas on `pathConfigTokenRotate` -/

/-- A rotation whose every step succeeds returns the sanitized view of the
folded record and leaves `rotatedWorld`. -/
theorem rotate_complete (env : Env σ) (w : World σ) (name : String)
    (config : EntryConfig) (client : Client) (entryToken : EntryToken)
    (expiresAt createdAt : Int)
    (hconfig : env.getConfig w.storage name = .ok (some config))
    (hclient : (env.getClient w.clients w.storage name).1 = .ok client)
    (hrotate : client.RotateCurrentToken = .ok entryToken)
    (hexp : entryToken.ExpiresAt = some expiresAt)
    (hcre : entryToken.CreatedAt = some createdAt)
    (hsave : (env.saveConfig (foldEntryToken config entryToken) w.storage).1 = none) :
    pathConfigTokenRotate env w name =
      (.returned (some ((foldEntryToken config entryToken).Response env), none),
        rotatedWorld env w name config entryToken expiresAt createdAt) := by
  simp [pathConfigTokenRotate, World.record, hconfig, hclient, hrotate, hexp, hcre, hsave,
    SetClientNil, rotatedWorld]

/-- A run that returns a response which is no error response, and no error, is
a rotation whose every step succeeded. -/
theorem rotate_success_inv (env : Env σ) (w : World σ) (name : String) (r : Response)
    (h : (pathConfigTokenRotate env w name).1 = .returned (some r, none))
    (hr : r.IsError = false) :
    ∃ config client entryToken expiresAt createdAt,
      env.getConfig w.storage name = .ok (some config) ∧
      (env.getClient w.clients w.storage name).1 = .ok client ∧
      client.RotateCurrentToken = .ok entryToken ∧
      entryToken.ExpiresAt = some expiresAt ∧
      entryToken.CreatedAt = some createdAt ∧
      (env.saveConfig (foldEntryToken config entryToken) w.storage).1 = none := by
  cases hconfig : env.getConfig w.storage name with
  | error err => simp [pathConfigTokenRotate, World.record, hconfig] at h
  | ok found =>
    cases found with
    | none =>
      simp [pathConfigTokenRotate, World.record, hconfig] at h
      subst h
      simp [Response.IsError] at hr
    | some config =>
      cases hclient : (env.getClient w.clients w.storage name).1 with
      | error err => simp [pathConfigTokenRotate, World.record, hconfig, hclient] at h
      | ok client =>
        cases hrotate : client.RotateCurrentToken with
        | error err =>
          simp [pathConfigTokenRotate, World.record, hconfig, hclient, hrotate] at h
        | ok entryToken =>
          cases hsave : (env.saveConfig (foldEntryToken config entryToken) w.storage).1 with
          | some err =>
            simp [pathConfigTokenRotate, World.record, hconfig, hclient, hrotate, hsave] at h
          | none =>
            cases hexp : entryToken.ExpiresAt with
            | none =>
              simp [pathConfigTokenRotate, World.record, hconfig, hclient, hrotate, hsave,
                hexp] at h
            | some expiresAt =>
              cases hcre : entryToken.CreatedAt with
              | none =>
                simp [pathConfigTokenRotate, World.record, hconfig, hclient, hrotate, hsave,
                  hexp, hcre] at h
              | some createdAt =>
                exact ⟨config, client, entryToken, expiresAt, createdAt, rfl, rfl, hrotate,
                  hexp, hcre, hsave⟩

/-- A successful run, with the record it loaded and the credential it minted. -/
theorem rotate_success_with (env : Env σ) (w : World σ) (name : String) (r : Response)
    (config : EntryConfig) (client : Client) (entryToken : EntryToken)
    (h : (pathConfigTokenRotate env w name).1 = .returned (some r, none))
    (hr : r.IsError = false)
    (hconfig : env.getConfig w.storage name = .ok (some config))
    (hclient : (env.getClient w.clients w.storage name).1 = .ok client)
    (hrotate : client.RotateCurrentToken = .ok entryToken) :
    ∃ expiresAt createdAt,
      entryToken.ExpiresAt = some expiresAt ∧ entryToken.CreatedAt = some createdAt ∧
      r = (foldEntryToken config entryToken).Response env ∧
      pathConfigTokenRotate env w name =
        (.returned (some ((foldEntryToken config entryToken).Response env), none),
          rotatedWorld env w name config entryToken expiresAt createdAt) := by
  obtain ⟨config', client', entryToken', expiresAt, createdAt, hconfig', hclient', hrotate',
    hexp, hcre, hsave⟩ := rotate_success_inv env w name r h hr
  rw [hconfig] at hconfig'
  cases hconfig'
  rw [hclient] at hclient'
  cases hclient'
  rw [hrotate] at hrotate'
  cases hrotate'
  have hrun := rotate_complete env w name config client entryToken expiresAt createdAt
    hconfig hclient hrotate hexp hcre hsave
  refine ⟨expiresAt, createdAt, hexp, hcre, ?_, hrun⟩
  rw [hrun] at h
  simp only [Outcome.returned.injEq, Prod.mk.injEq, Option.some.injEq, and_true] at h
  exact h.symm

/-- The events of a complete rotation: those sent before, then the one
`config-token-rotate` event. -/
theorem rotatedWorld_events (env : Env σ) (w : World σ) (name : String)
    (config : EntryConfig) (entryToken : EntryToken) (expiresAt createdAt : Int) :
    events (rotatedWorld env w name config entryToken expiresAt createdAt).trace =
      events w.trace ++
        [("config-token-rotate",
          [ ("path", env.PathConfigStorage ++ "/" ++ name),
            ("expires_at", env.formatRFC3339 expiresAt),
            ("created_at", env.formatRFC3339 createdAt),
            ("scopes", Join entryToken.Scopes ", "),
            ("token_id", Itoa entryToken.TokenID),
            ("name", entryToken.Name) ])] := by
  simp [rotatedWorld, events_append, events, rotateEvent]

/-- Every run of `pathConfigTokenRotate` starts with `getConfig` for the name. -/
theorem rotate_trace_starts (env : Env σ) (w : World σ) (name : String) :
    ∃ rest, (pathConfigTokenRotate env w name).2.trace =
      w.trace ++ Effect.getConfig name :: rest := by
  unfold pathConfigTokenRotate
  simp only [World.record]
  split
  · exact ⟨[], rfl⟩
  · exact ⟨[], rfl⟩
  · split
    · exact ⟨_, by simp only [List.append_assoc]; rfl⟩
    · split
      · exact ⟨_, by simp only [List.append_assoc]; rfl⟩
      · split
        · exact ⟨_, by simp only [List.append_assoc]; rfl⟩
        · split
          · exact ⟨_, by simp only [List.append_assoc]; rfl⟩
          · split
            · exact ⟨_, by simp only [List.append_assoc]; rfl⟩
            · exact ⟨_, by simp only [SetClientNil, World.record, List.append_assoc]; rfl⟩

/-- A run of `pathConfigTokenRotate` either sends no event or is a complete
rotation. -/
theorem rotate_event_only_when_complete (env : Env σ) (w : World σ) (name : String) :
    events (pathConfigTokenRotate env w name).2.trace = events w.trace ∨
    ∃ config entryToken expiresAt createdAt,
      (env.saveConfig (foldEntryToken config entryToken) w.storage).1 = none ∧
      (pathConfigTokenRotate env w name).2 =
        rotatedWorld env w name config entryToken expiresAt createdAt := by
  cases hconfig : env.getConfig w.storage name with
  | error err =>
    left; simp [pathConfigTokenRotate, World.record, hconfig, events_append, events]
  | ok found =>
    cases found with
    | none =>
      left; simp [pathConfigTokenRotate, World.record, hconfig, events_append, events]
    | some config =>
      cases hclient : (env.getClient w.clients w.storage name).1 with
      | error err =>
        left
        simp [pathConfigTokenRotate, World.record, hconfig, hclient, events_append, events]
      | ok client =>
        cases hrotate : client.RotateCurrentToken with
        | error err =>
          left
          simp [pathConfigTokenRotate, World.record, hconfig, hclient, hrotate,
            events_append, events]
        | ok entryToken =>
          cases hsave : (env.saveConfig (foldEntryToken config entryToken) w.storage).1 with
          | some err =>
            left
            simp [pathConfigTokenRotate, World.record, hconfig, hclient, hrotate, hsave,
              events_append, events]
          | none =>
            cases hexp : entryToken.ExpiresAt with
            | none =>
              left
              simp [pathConfigTokenRotate, World.record, hconfig, hclient, hrotate, hsave,
                hexp, events_append, events]
            | some expiresAt =>
              cases hcre : entryToken.CreatedAt with
              | none =>
                left
                simp [pathConfigTokenRotate, World.record, hconfig, hclient, hrotate, hsave,
                  hexp, hcre, events_append, events]
              | some createdAt =>
                right
                refine ⟨config, entryToken, expiresAt, createdAt, hsave, ?_⟩
                rw [rotate_complete env w name config client entryToken expiresAt createdAt
                  hconfig hclient hrotate hexp hcre hsave]

/-- The fold writes the creation time of the minted credential, when there is
one, into `TokenExpiresAt`. -/
theorem foldEntryToken_expiry (config : EntryConfig) (entryToken : EntryToken)
    (createdAt : Int) (hcre : entryToken.CreatedAt = some createdAt) :
    (foldEntryToken config entryToken).TokenExpiresAt = createdAt := by
  simp [foldEntryToken, hcre]

/-! ## Rotation: failure, cache, response, decision, fold, order -/

/-- C4 (amended): no persistence when a rotation fails.  When the configuration
fails to load or is absent, the only call of `pathConfigTokenRotate` is
`getConfig` and storage and client cache are as before; when client
construction or `RotateCurrentToken` fails, `saveConfig`, the event and
`SetClient` are not called, the storage is as before and the client cache is as
`getClient` left it; in the three error cases the error is returned unmodified
with a nil response, and the absent configuration gives the error response
"backend not configured" with a nil error.  When `saveConfig` fails its error is
returned unmodified and neither the event nor `SetClient` is called. -/
theorem rotate_failure_no_persistence (env : Env σ) (w : World σ) (name : String) :
    (∀ err, env.getConfig w.storage name = .error err →
      pathConfigTokenRotate env w name =
        (.returned (none, some err),
          { storage := w.storage, clients := w.clients,
            trace := w.trace ++ [Effect.getConfig name] })) ∧
    (env.getConfig w.storage name = .ok none →
      pathConfigTokenRotate env w name =
        (.returned (some (Response.ErrorResponse Error.ErrBackendNotConfigured.Error), none),
          { storage := w.storage, clients := w.clients,
            trace := w.trace ++ [Effect.getConfig name] })) ∧
    (∀ config err, env.getConfig w.storage name = .ok (some config) →
      (env.getClient w.clients w.storage name).1 = .error err →
      pathConfigTokenRotate env w name =
        (.returned (none, some err),
          { storage := w.storage, clients := (env.getClient w.clients w.storage name).2,
            trace := w.trace ++ [Effect.getConfig name, Effect.getClient name] })) ∧
    (∀ config client err, env.getConfig w.storage name = .ok (some config) →
      (env.getClient w.clients w.storage name).1 = .ok client →
      client.RotateCurrentToken = .error err →
      pathConfigTokenRotate env w name =
        (.returned (none, some err),
          { storage := w.storage, clients := (env.getClient w.clients w.storage name).2,
            trace := w.trace ++
              [Effect.getConfig name, Effect.getClient name, Effect.RotateCurrentToken] })) ∧
    (∀ config client entryToken err, env.getConfig w.storage name = .ok (some config) →
      (env.getClient w.clients w.storage name).1 = .ok client →
      client.RotateCurrentToken = .ok entryToken →
      (env.saveConfig (foldEntryToken config entryToken) w.storage).1 = some err →
      pathConfigTokenRotate env w name =
        (.returned (none, some err),
          { storage := (env.saveConfig (foldEntryToken config entryToken) w.storage).2,
            clients := (env.getClient w.clients w.storage name).2,
            trace := w.trace ++
              [ Effect.getConfig name, Effect.getClient name, Effect.RotateCurrentToken,
                Effect.saveConfig (foldEntryToken config entryToken) (some err) ] })) := by
  refine ⟨?_, ?_, ?_, ?_, ?_⟩
  · intro err hconfig
    simp [pathConfigTokenRotate, World.record, hconfig]
  · intro hconfig
    simp [pathConfigTokenRotate, World.record, hconfig]
  · intro config err hconfig hclient
    simp [pathConfigTokenRotate, World.record, hconfig, hclient]
  · intro config client err hconfig hclient hrotate
    simp [pathConfigTokenRotate, World.record, hconfig, hclient, hrotate]
  · intro config client entryToken err hconfig hclient hrotate hsave
    simp [pathConfigTokenRotate, World.record, hconfig, hclient, hrotate, hsave]

/-- A rotation whose remote call fails: the error is returned, the record is
not saved, no event is sent and `SetClient` is not called. -/
theorem rotate_failure_example :
    pathConfigTokenRotate (exampleEnv (exampleClient (.error (Error.other "401")) none))
      exampleWorld "default" =
      (.returned (none, some (Error.other "401")),
        { storage := exampleWorld.storage,
          clients := ((exampleEnv (exampleClient (.error (Error.other "401")) none)).getClient
            exampleWorld.clients exampleWorld.storage "default").2,
          trace := exampleWorld.trace ++
            [ Effect.getConfig "default", Effect.getClient "default",
              Effect.RotateCurrentToken ] }) :=
  (rotate_failure_no_persistence
    (exampleEnv (exampleClient (.error (Error.other "401")) none)) exampleWorld
    "default").2.2.2.1 exampleConfig (exampleClient (.error (Error.other "401")) none)
    (Error.other "401") rfl rfl rfl

/-- A rotation whose remote call fails, with a client cache that memoizes the
client it constructs: the cache entry of the configuration, empty before the
run, holds a client after it. -/
theorem rotate_failure_fills_cache :
    (exampleClient (.error (Error.other "401")) none).RotateCurrentToken =
      .error (Error.other "401") ∧
    (pathConfigTokenRotate (exampleEnv (exampleClient (.error (Error.other "401")) none))
      exampleWorld "default").1 = .returned (none, some (Error.other "401")) ∧
    (exampleWorld.clients "default").isSome = false ∧
    ((pathConfigTokenRotate (exampleEnv (exampleClient (.error (Error.other "401")) none))
      exampleWorld "default").2.clients "default").isSome = true := by
  refine ⟨rfl, by decide, rfl, rfl⟩

/-- C5: after `pathConfigTokenRotate` for `name` returns successfully (a
response that is no error response, and no error), the client cache entry of
`name` is none and `SetClient(nil, name)` is the last call made. -/
theorem rotate_invalidates_cache (env : Env σ) (w : World σ) (name : String)
    (r : Response)
    (h : (pathConfigTokenRotate env w name).1 = .returned (some r, none))
    (hr : r.IsError = false) :
    (pathConfigTokenRotate env w name).2.clients name = none ∧
    (pathConfigTokenRotate env w name).2.trace.getLast? = some (Effect.SetClientNil name) := by
  obtain ⟨config, client, entryToken, expiresAt, createdAt, hconfig, hclient, hrotate, hexp,
    hcre, hsave⟩ := rotate_success_inv env w name r h hr
  rw [rotate_complete env w name config client entryToken expiresAt createdAt hconfig
    hclient hrotate hexp hcre hsave]
  simp [rotatedWorld]

/-- A successful rotation of the default configuration whose client was cached
before the run: the cache entry is none afterwards. -/
theorem rotate_invalidates_cache_example :
    ((pathConfigTokenRotate (exampleEnv (exampleClient (.ok exampleToken) none))
      { exampleWorld with
        clients := fun _ => some (exampleClient (.ok exampleToken) none) }
      "default").2.clients "default").isNone = true ∧
    (pathConfigTokenRotate (exampleEnv (exampleClient (.ok exampleToken) none))
      { exampleWorld with
        clients := fun _ => some (exampleClient (.ok exampleToken) none) }
      "default").2.trace.getLast? = some (Effect.SetClientNil "default") := by
  have hrun := rotate_invalidates_cache (exampleEnv (exampleClient (.ok exampleToken) none))
    { exampleWorld with clients := fun _ => some (exampleClient (.ok exampleToken) none) }
    "default"
    ((foldEntryToken exampleConfig exampleToken).Response
      (exampleEnv (exampleClient (.ok exampleToken) none)))
    rfl rfl
  exact ⟨by rw [hrun.1]; rfl, hrun.2⟩

/-- C6 (amended): a successful `pathConfigTokenRotate` returns exactly the
sanitized view `Response()` of the folded record, and the attributes of its
`config-token-rotate` event are exactly path, expires_at, created_at, scopes,
token_id and name.  Two successful runs on the same record whose minted
credentials differ only in the raw token send the same event, and the second
response is the first with the token fingerprint replaced: the raw token reaches
the response through the fingerprint only and the event not at all. -/
theorem rotate_hides_token (env : Env σ) (w1 w2 : World σ) (name : String)
    (r1 r2 : Response) (config : EntryConfig) (client1 client2 : Client)
    (entryToken : EntryToken) (rawToken2 : String)
    (h1 : (pathConfigTokenRotate env w1 name).1 = .returned (some r1, none))
    (hr1 : r1.IsError = false)
    (h2 : (pathConfigTokenRotate env w2 name).1 = .returned (some r2, none))
    (hr2 : r2.IsError = false)
    (hconfig1 : env.getConfig w1.storage name = .ok (some config))
    (hconfig2 : env.getConfig w2.storage name = .ok (some config))
    (hclient1 : (env.getClient w1.clients w1.storage name).1 = .ok client1)
    (hclient2 : (env.getClient w2.clients w2.storage name).1 = .ok client2)
    (hrotate1 : client1.RotateCurrentToken = .ok entryToken)
    (hrotate2 : client2.RotateCurrentToken = .ok { entryToken with Token := rawToken2 }) :
    r1 = (foldEntryToken config entryToken).Response env ∧
    r2 = (foldEntryToken config { entryToken with Token := rawToken2 }).Response env ∧
    (∃ attrs,
      keys attrs = ["path", "expires_at", "created_at", "scopes", "token_id", "name"] ∧
      events (pathConfigTokenRotate env w1 name).2.trace =
        events w1.trace ++ [("config-token-rotate", attrs)] ∧
      events (pathConfigTokenRotate env w2 name).2.trace =
        events w2.trace ++ [("config-token-rotate", attrs)]) ∧
    r2.fields = r1.fields.map (fun field =>
      if field.1 = "token_sha1_hash" then (field.1, env.fingerprint rawToken2) else field) ∧
    ("token_sha1_hash", env.fingerprint entryToken.Token) ∈ r1.fields := by
  obtain ⟨expiresAt, createdAt, hexp, hcre, hresp1, hrun1⟩ :=
    rotate_success_with env w1 name r1 config client1 entryToken h1 hr1 hconfig1 hclient1
      hrotate1
  obtain ⟨expiresAt2, createdAt2, hexp2, hcre2, hresp2, hrun2⟩ :=
    rotate_success_with env w2 name r2 config client2 { entryToken with Token := rawToken2 }
      h2 hr2 hconfig2 hclient2 hrotate2
  have hexp' : expiresAt2 = expiresAt := by
    have hboth : some expiresAt2 = some expiresAt := hexp2.symm.trans hexp
    exact Option.some.inj hboth
  have hcre' : createdAt2 = createdAt := by
    have hboth : some createdAt2 = some createdAt := hcre2.symm.trans hcre
    exact Option.some.inj hboth
  subst hexp' hcre'
  refine ⟨hresp1, hresp2,
    ⟨[ ("path", env.PathConfigStorage ++ "/" ++ name),
       ("expires_at", env.formatRFC3339 expiresAt2),
       ("created_at", env.formatRFC3339 createdAt2),
       ("scopes", Join entryToken.Scopes ", "),
       ("token_id", Itoa entryToken.TokenID),
       ("name", entryToken.Name) ], rfl, ?_, ?_⟩, ?_, ?_⟩
  · rw [hrun1, rotatedWorld_events]
  · rw [hrun2, rotatedWorld_events]
  · rw [hresp1, hresp2]
    simp [EntryConfig.Response, Response.fields, foldEntryToken, hexp, hcre]
  · rw [hresp1]
    simp [EntryConfig.Response, Response.fields, foldEntryToken, hexp, hcre]

/-- Two rotations of the scenario's record whose minted credentials differ in
the raw token only: the events are the same, and the second response is the
first with the fingerprint replaced. -/
theorem rotate_hides_token_example :
    events (pathConfigTokenRotate (exampleEnv (exampleClient (.ok exampleToken) none))
      (worldCaching (exampleClient (.ok exampleToken) none)) "default").2.trace =
      events (pathConfigTokenRotate (exampleEnv (exampleClient (.ok exampleToken) none))
        (worldCaching (exampleClient (.ok { exampleToken with Token := "glpat-other" }) none))
        "default").2.trace ∧
    ((foldEntryToken exampleConfig { exampleToken with Token := "glpat-other" }).Response
      (exampleEnv (exampleClient (.ok exampleToken) none))).fields =
      ((foldEntryToken exampleConfig exampleToken).Response
        (exampleEnv (exampleClient (.ok exampleToken) none))).fields.map (fun field =>
          if field.1 = "token_sha1_hash" then
            (field.1, (exampleEnv (exampleClient (.ok exampleToken) none)).fingerprint
              "glpat-other")
          else field) := by
  obtain ⟨_, _, ⟨attrs, _, hevents1, hevents2⟩, hfields, _⟩ :=
    rotate_hides_token (exampleEnv (exampleClient (.ok exampleToken) none))
      (worldCaching (exampleClient (.ok exampleToken) none))
      (worldCaching (exampleClient (.ok { exampleToken with Token := "glpat-other" }) none))
      "default"
      ((foldEntryToken exampleConfig exampleToken).Response
        (exampleEnv (exampleClient (.ok exampleToken) none)))
      ((foldEntryToken exampleConfig { exampleToken with Token := "glpat-other" }).Response
        (exampleEnv (exampleClient (.ok exampleToken) none)))
      exampleConfig (exampleClient (.ok exampleToken) none)
      (exampleClient (.ok { exampleToken with Token := "glpat-other" }) none)
      exampleToken "glpat-other" rfl rfl rfl rfl rfl rfl rfl rfl rfl rfl
  exact ⟨hevents1.trans hevents2.symm, hfields⟩

/-- A successful rotation whose minted credential is named like its raw value:
the `name` attribute of the event equals the raw token. -/
theorem rotate_event_name_equals_token :
    (pathConfigTokenRotate (exampleEnv (exampleClient (.ok tokenNamedAsValue) none))
      exampleWorld "default").1 =
      .returned (some ((foldEntryToken exampleConfig tokenNamedAsValue).Response
        (exampleEnv (exampleClient (.ok tokenNamedAsValue) none))), none) ∧
    tokenNamedAsValue.Token = "glpat-new" ∧
    (events (pathConfigTokenRotate (exampleEnv (exampleClient (.ok tokenNamedAsValue) none))
      exampleWorld "default").2.trace).map (fun sent => sent.2.lookup "name") =
      [some "glpat-new"] := by
  refine ⟨rfl, rfl, rfl⟩

/-- C7 (amended): `checkAndRotateConfigToken` delegates to
`pathConfigTokenRotate`, for the name of the record or the default name when
that is empty, if and only if the remaining time as Go computes it,
`time.Until(TokenExpiresAt)`, is at most `AutoRotateBefore`, the boundary
included; its result is then the error of the rotation.  When that remaining
time is greater it returns nil and leaves the world as it was: no store read or
write, no remote call, no event, no cache change.  `time.Until` is the
difference `TokenExpiresAt - now` saturated at the largest and the smallest
duration: it is the exact difference whenever that fits a duration, and the
comparison is that of the exact difference for every `AutoRotateBefore` that is
a duration below the largest one. -/
theorem check_rotation_decision (env : Env σ) (now : Int) (w : World σ)
    (config : EntryConfig) :
    (timeUntil now config.TokenExpiresAt ≤ config.AutoRotateBefore →
      checkAndRotateConfigToken env now w config =
        (match (pathConfigTokenRotate env w (cmpOr config.Name env.TypeConfigDefault)).1 with
          | .returned r => .returned r.2
          | .panicked what => .panicked what,
         (pathConfigTokenRotate env w (cmpOr config.Name env.TypeConfigDefault)).2)) ∧
    (config.AutoRotateBefore < timeUntil now config.TokenExpiresAt →
      checkAndRotateConfigToken env now w config = (.returned none, w)) ∧
    ((∃ rest, (checkAndRotateConfigToken env now w config).2.trace =
        w.trace ++ Effect.getConfig (cmpOr config.Name env.TypeConfigDefault) :: rest) ↔
      timeUntil now config.TokenExpiresAt ≤ config.AutoRotateBefore) ∧
    (cmpOr config.Name env.TypeConfigDefault =
      if config.Name = "" then env.TypeConfigDefault else config.Name) ∧
    (minDuration ≤ config.TokenExpiresAt - now → config.TokenExpiresAt - now ≤ maxDuration →
      timeUntil now config.TokenExpiresAt = config.TokenExpiresAt - now) ∧
    (minDuration ≤ config.AutoRotateBefore → config.AutoRotateBefore < maxDuration →
      (timeUntil now config.TokenExpiresAt ≤ config.AutoRotateBefore ↔
        config.TokenExpiresAt - now ≤ config.AutoRotateBefore)) := by
  have hdue : timeUntil now config.TokenExpiresAt ≤ config.AutoRotateBefore →
      checkAndRotateConfigToken env now w config =
        (match (pathConfigTokenRotate env w (cmpOr config.Name env.TypeConfigDefault)).1 with
          | .returned r => .returned r.2
          | .panicked what => .panicked what,
         (pathConfigTokenRotate env w (cmpOr config.Name env.TypeConfigDefault)).2) := by
    intro hle
    unfold checkAndRotateConfigToken
    rw [if_neg (not_lt.2 hle)]
    rcases hrun : pathConfigTokenRotate env w (cmpOr config.Name env.TypeConfigDefault) with
      ⟨outcome, w1⟩
    cases outcome <;> rfl
  have hnot : config.AutoRotateBefore < timeUntil now config.TokenExpiresAt →
      checkAndRotateConfigToken env now w config = (.returned none, w) := by
    intro hlt
    unfold checkAndRotateConfigToken
    rw [if_pos hlt]
  refine ⟨hdue, hnot, ?_, rfl, ?_, ?_⟩
  · constructor
    · rintro ⟨rest, hrest⟩
      by_contra hgt
      rw [hnot (not_le.1 hgt)] at hrest
      have hlen := congrArg List.length hrest
      simp at hlen
    · intro hle
      rw [hdue hle]
      exact rotate_trace_starts env w _
  · intro hmin hmax
    unfold timeUntil
    rw [if_neg (not_lt.2 hmax), if_neg (not_lt.2 hmin)]
  · intro hmin hmax
    unfold timeUntil
    split_ifs with h1 h2
    · constructor
      · intro h; omega
      · intro h; omega
    · constructor
      · intro _; omega
      · intro _; exact hmin
    · rfl

/-- The scenario of the specification: the token expires in one hour and is to
be rotated 24 hours before its expiry, so the pre-check delegates to the
rotation; with a token that expires in 30 days it does nothing. -/
theorem check_rotation_scenario :
    (∃ rest, (checkAndRotateConfigToken (exampleEnv (exampleClient (.ok exampleToken) none))
        exampleNow exampleWorld exampleConfig).2.trace =
        exampleWorld.trace ++ Effect.getConfig "default" :: rest) ∧
    (checkAndRotateConfigToken (exampleEnv (exampleClient (.ok exampleToken) none))
        exampleNow exampleWorld
        { exampleConfig with TokenExpiresAt := exampleNow + 720 * hour }).1 =
      .returned none := by
  constructor
  · exact (check_rotation_decision (exampleEnv (exampleClient (.ok exampleToken) none))
      exampleNow exampleWorld exampleConfig).2.2.1.2 (by decide)
  · rw [(check_rotation_decision (exampleEnv (exampleClient (.ok exampleToken) none))
      exampleNow exampleWorld
      { exampleConfig with TokenExpiresAt := exampleNow + 720 * hour }).2.1 (by decide)]

/-- A record with `AutoRotateBefore` the largest duration whose token expires
`2 ^ 63` nanoseconds from now: the exact remaining time `TokenExpiresAt - now`
is greater than `AutoRotateBefore`, yet `time.Until` saturates to the largest
duration, the guard does not hold and the pre-check delegates to the rotation,
which reads the store, rotates the token remotely and saves the record. -/
theorem check_rotation_saturated :
    farExpiryConfig.AutoRotateBefore = 2 ^ 63 - 1 ∧
    farExpiryConfig.TokenExpiresAt - exampleNow = 2 ^ 63 ∧
    farExpiryConfig.AutoRotateBefore < farExpiryConfig.TokenExpiresAt - exampleNow ∧
    timeUntil exampleNow farExpiryConfig.TokenExpiresAt = farExpiryConfig.AutoRotateBefore ∧
    (checkAndRotateConfigToken (exampleEnv (exampleClient (.ok exampleToken) none))
      exampleNow farExpiryWorld farExpiryConfig).1 = .returned none ∧
    (checkAndRotateConfigToken (exampleEnv (exampleClient (.ok exampleToken) none))
      exampleNow farExpiryWorld farExpiryConfig).2.trace =
      [ Effect.getConfig "default", Effect.getClient "default", Effect.RotateCurrentToken,
        Effect.saveConfig (foldEntryToken farExpiryConfig exampleToken) none,
        rotateEvent (exampleEnv (exampleClient (.ok exampleToken) none)) "default"
          exampleToken (exampleNow + 720 * hour) exampleNow,
        Effect.SetClientNil "default" ] ∧
    (checkAndRotateConfigToken (exampleEnv (exampleClient (.ok exampleToken) none))
      exampleNow farExpiryWorld farExpiryConfig).2.trace ≠ farExpiryWorld.trace := by
  refine ⟨by decide, by decide, by decide, by decide, by decide, by decide, by decide⟩

/-- C8 (the code at the scenario): the record expires in one hour, the minted
credential is created now and expires in 30 days.  The rotation succeeds and
saves a record whose `TokenExpiresAt` is the creation time of the minted
credential: not its expiry, and earlier than the expiry the record had. -/
theorem rotate_scenario_saves_creation_time :
    exampleConfig.TokenExpiresAt = exampleNow + hour ∧
    exampleToken.CreatedAt = some exampleNow ∧
    exampleToken.ExpiresAt = some (exampleNow + 720 * hour) ∧
    (pathConfigTokenRotate (exampleEnv (exampleClient (.ok exampleToken) none))
      exampleWorld "default").1 =
      .returned (some ((foldEntryToken exampleConfig exampleToken).Response
        (exampleEnv (exampleClient (.ok exampleToken) none))), none) ∧
    (pathConfigTokenRotate (exampleEnv (exampleClient (.ok exampleToken) none))
      exampleWorld "default").2.storage =
      some [{ exampleConfig with
        Token := "glpat-new", TokenId := 7, Scopes := ["api"],
        TokenExpiresAt := exampleNow }] ∧
    exampleNow < exampleConfig.TokenExpiresAt ∧
    exampleNow ≠ exampleNow + 720 * hour := by
  refine ⟨rfl, rfl, rfl, rfl, by decide, by decide, by decide⟩

/-- C9 (amended): in every successful run of `pathConfigTokenRotate` the calls
made are, in this order, `getConfig`, `getClient`, `RotateCurrentToken`, the
`saveConfig` that succeeds, the sending of the `config-token-rotate` event and
then `SetClient(nil, name)`: save before emit, emit before invalidate.  In
every run, successful or not, an event is sent only in such a complete
sequence, after the save has succeeded. -/
theorem rotate_effect_order (env : Env σ) (w : World σ) (name : String) :
    (∀ r, (pathConfigTokenRotate env w name).1 = .returned (some r, none) →
      r.IsError = false →
      ∃ config entryToken expiresAt createdAt,
        (pathConfigTokenRotate env w name).2.trace = w.trace ++
          [ Effect.getConfig name, Effect.getClient name, Effect.RotateCurrentToken,
            Effect.saveConfig (foldEntryToken config entryToken) none,
            rotateEvent env name entryToken expiresAt createdAt,
            Effect.SetClientNil name ]) ∧
    (events (pathConfigTokenRotate env w name).2.trace ≠ events w.trace →
      ∃ config entryToken expiresAt createdAt,
        (env.saveConfig (foldEntryToken config entryToken) w.storage).1 = none ∧
        (pathConfigTokenRotate env w name).2.trace = w.trace ++
          [ Effect.getConfig name, Effect.getClient name, Effect.RotateCurrentToken,
            Effect.saveConfig (foldEntryToken config entryToken) none,
            rotateEvent env name entryToken expiresAt createdAt,
            Effect.SetClientNil name ]) ∧
    (∀ config entryToken expiresAt createdAt,
      comesBefore isSaved isEvent
        [ Effect.getConfig name, Effect.getClient name, Effect.RotateCurrentToken,
          Effect.saveConfig (foldEntryToken config entryToken) none,
          rotateEvent env name entryToken expiresAt createdAt,
          Effect.SetClientNil name ] = true ∧
      comesBefore isEvent isSetClientNil
        [ Effect.getConfig name, Effect.getClient name, Effect.RotateCurrentToken,
          Effect.saveConfig (foldEntryToken config entryToken) none,
          rotateEvent env name entryToken expiresAt createdAt,
          Effect.SetClientNil name ] = true ∧
      comesBefore isSetClientNil isEvent
        [ Effect.getConfig name, Effect.getClient name, Effect.RotateCurrentToken,
          Effect.saveConfig (foldEntryToken config entryToken) none,
          rotateEvent env name entryToken expiresAt createdAt,
          Effect.SetClientNil name ] = false) := by
  refine ⟨?_, ?_, ?_⟩
  · intro r h hr
    obtain ⟨config, client, entryToken, expiresAt, createdAt, hconfig, hclient, hrotate,
      hexp, hcre, hsave⟩ := rotate_success_inv env w name r h hr
    exact ⟨config, entryToken, expiresAt, createdAt, by
      rw [rotate_complete env w name config client entryToken expiresAt createdAt hconfig
        hclient hrotate hexp hcre hsave]
      rfl⟩
  · intro hsent
    rcases rotate_event_only_when_complete env w name with hnone | hall
    · exact absurd hnone hsent
    · obtain ⟨config, entryToken, expiresAt, createdAt, hsave, hworld⟩ := hall
      exact ⟨config, entryToken, expiresAt, createdAt, hsave, by rw [hworld]; rfl⟩
  · intro config entryToken expiresAt createdAt
    refine ⟨rfl, rfl, rfl⟩

/-- The successful rotation of the scenario: its six calls in order. -/
theorem rotate_effect_order_example :
    ∃ config entryToken expiresAt createdAt,
      (pathConfigTokenRotate (exampleEnv (exampleClient (.ok exampleToken) none))
        exampleWorld "default").2.trace = exampleWorld.trace ++
        [ Effect.getConfig "default", Effect.getClient "default", Effect.RotateCurrentToken,
          Effect.saveConfig (foldEntryToken config entryToken) none,
          rotateEvent (exampleEnv (exampleClient (.ok exampleToken) none)) "default"
            entryToken expiresAt createdAt,
          Effect.SetClientNil "default" ] :=
  (rotate_effect_order (exampleEnv (exampleClient (.ok exampleToken) none)) exampleWorld
    "default").1 _ rfl rfl

/-- The successful rotation of the scenario sends its event before it clears
the cache entry: no event comes after `SetClient(nil, name)`. -/
theorem rotate_emits_before_invalidate :
    (pathConfigTokenRotate (exampleEnv (exampleClient (.ok exampleToken) none))
      exampleWorld "default").1 =
      .returned (some ((foldEntryToken exampleConfig exampleToken).Response
        (exampleEnv (exampleClient (.ok exampleToken) none))), none) ∧
    comesBefore isSetClientNil isEvent
      (pathConfigTokenRotate (exampleEnv (exampleClient (.ok exampleToken) none))
        exampleWorld "default").2.trace = false ∧
    comesBefore isEvent isSetClientNil
      (pathConfigTokenRotate (exampleEnv (exampleClient (.ok exampleToken) none))
        exampleWorld "default").2.trace = true := by
  refine ⟨rfl, rfl, rfl⟩

/-! ## Service-account revocation and rotation with nil timestamps -/

/-- A rotation whose minted credential has a nil `ExpiresAt` or a nil
`CreatedAt` and whose save succeeds panics while it builds the attributes of the
event: the record is saved, no event is sent and `SetClient` is not called. -/
theorem rotate_panics_without_timestamp (env : Env σ) (w : World σ) (name : String)
    (config : EntryConfig) (client : Client) (entryToken : EntryToken)
    (hconfig : env.getConfig w.storage name = .ok (some config))
    (hclient : (env.getClient w.clients w.storage name).1 = .ok client)
    (hrotate : client.RotateCurrentToken = .ok entryToken)
    (hsave : (env.saveConfig (foldEntryToken config entryToken) w.storage).1 = none)
    (hnil : entryToken.ExpiresAt = none ∨ entryToken.CreatedAt = none) :
    ∃ what, pathConfigTokenRotate env w name =
      (.panicked what,
        { storage := (env.saveConfig (foldEntryToken config entryToken) w.storage).2,
          clients := (env.getClient w.clients w.storage name).2,
          trace := w.trace ++
            [ Effect.getConfig name, Effect.getClient name, Effect.RotateCurrentToken,
              Effect.saveConfig (foldEntryToken config entryToken) none ] }) := by
  cases hexp : entryToken.ExpiresAt with
  | none =>
    exact ⟨"nil pointer dereference: entryToken.ExpiresAt", by
      simp [pathConfigTokenRotate, World.record, hconfig, hclient, hrotate, hsave, hexp]⟩
  | some expiresAt =>
    have hcre : entryToken.CreatedAt = none := by
      rcases hnil with h | h
      · rw [hexp] at h; cases h
      · exact h
    exact ⟨"nil pointer dereference: entryToken.CreatedAt", by
      simp [pathConfigTokenRotate, World.record, hconfig, hclient, hrotate, hsave, hexp,
        hcre]⟩

/-- C11 (amended): for metadata with token type `user_service_account`, a
`token` entry and a `gitlab_revokes_token` entry parsing to false, with a
storage.  When the metadata also has a numeric `token_id` and a `parent_id`
entry and the client is obtained, `secretAccessTokenRevoke` makes exactly one
remote revoke call, `RevokeUserServiceAccountAccessToken(token)`, hence no
id-based call.  When the metadata has no `token_id` entry it returns a nil
response and an error wrapping `ErrInvalidValue` and makes no call at all. -/
theorem revoke_service_account_by_value (env : Env σ) (w : World σ) (secret : Secret)
    (revokesValue tok : String)
    (hstorage : w.storage ≠ none)
    (htype : secret.InternalData.token_type = some "user_service_account")
    (htoken : secret.InternalData.token = some tok)
    (hrevokes : secret.InternalData.gitlab_revokes_token = some revokesValue)
    (hvault : (ParseBool revokesValue).1 = false) :
    (∀ tokenId parentId client,
      secret.InternalData.token_id = some (Value.int tokenId) →
      secret.InternalData.parent_id = some parentId →
      (env.getClient w.clients w.storage
        (secret.InternalData.config_name.getD env.DefaultConfigName)).1 = .ok client →
      revokeCalls (secretAccessTokenRevoke env w (some secret)).2.trace =
        revokeCalls w.trace ++ [Effect.RevokeUserServiceAccountAccessToken tok]) ∧
    (secret.InternalData.token_id = none →
      ∃ err, secretAccessTokenRevoke env w (some secret) = (.returned (none, some err), w) ∧
        Error.Is err Error.ErrInvalidValue = true) := by
  constructor
  · intro tokenId parentId client hid hparent hclient
    have hconv : convertToInt secret.InternalData.token_id = .ok tokenId := by
      rw [hid]; rfl
    have hparse : (TokenTypeParse "user_service_account").1 =
        TokenType.TokenTypeUserServiceAccount := by decide
    have hswitch : revokeSwitch client (TokenTypeParse "user_service_account").1 tokenId
        parentId secret.InternalData.token =
        .returned (some (Effect.RevokeUserServiceAccountAccessToken tok,
          client.RevokeUserServiceAccountAccessToken tok)) := by
      rw [hparse, htoken]; rfl
    rw [revoke_after_call env w secret tokenId revokesValue parentId "user_service_account"
      client _ _ hstorage hconv hrevokes hvault hparent htype hclient hswitch]
    dsimp only
    split
    · rw [revokeEvent_revokeCalls]
      simp only [revokeCalls_append, revokeCalls, List.append_nil]
    · simp only [revokeCalls_append, revokeCalls, List.append_nil]
  · intro hid
    obtain ⟨st, hst⟩ := Option.ne_none_iff_exists'.1 hstorage
    refine ⟨Error.wrapf "token_id" (Error.wrapf "<nil>" Error.ErrInvalidValue), ?_, by decide⟩
    simp [secretAccessTokenRevoke, hst, hid, convertToInt]

/-- The service-account scenario with token id 42 and parent `grp-7` added
makes the single call `RevokeUserServiceAccountAccessToken("glpat-xyz")`; the
scenario as it is, without `token_id`, returns an error and changes nothing. -/
theorem revoke_service_account_example :
    revokeCalls (secretAccessTokenRevoke (exampleEnv (exampleClient (.ok exampleToken) none))
      exampleWorld (some (serviceAccountWith (some (Value.int 42)) (some "grp-7")))).2.trace =
      revokeCalls exampleWorld.trace ++
        [Effect.RevokeUserServiceAccountAccessToken "glpat-xyz"] ∧
    ∃ err, secretAccessTokenRevoke (exampleEnv (exampleClient (.ok exampleToken) none))
        exampleWorld (some serviceAccountScenario) =
        (.returned (none, some err), exampleWorld) ∧
      Error.Is err Error.ErrInvalidValue = true :=
  ⟨(revoke_service_account_by_value (exampleEnv (exampleClient (.ok exampleToken) none))
      exampleWorld (serviceAccountWith (some (Value.int 42)) (some "grp-7")) "false"
      "glpat-xyz" (by decide) rfl rfl rfl (by decide)).1 42 "grp-7"
      (exampleClient (.ok exampleToken) none) rfl rfl rfl,
   (revoke_service_account_by_value (exampleEnv (exampleClient (.ok exampleToken) none))
      exampleWorld serviceAccountScenario "false" "glpat-xyz" (by decide) rfl rfl rfl
      (by decide)).2 rfl⟩

/-- The service-account scenario of the specification, with a storage and an
obtainable client: the handler returns the `token_id` error and makes no remote
revoke call.  With a numeric `token_id` added and still no `parent_id` entry it
panics on the type assertion of `parent_id`, again before any call. -/
theorem revoke_service_account_without_token_id :
    exampleWorld.storage ≠ none ∧
    ((exampleEnv (exampleClient (.ok exampleToken) none)).getClient exampleWorld.clients
      exampleWorld.storage "default").1.toBool = true ∧
    (secretAccessTokenRevoke (exampleEnv (exampleClient (.ok exampleToken) none))
      exampleWorld (some serviceAccountScenario)).1 =
      .returned (none,
        some (Error.wrapf "token_id" (Error.wrapf "<nil>" Error.ErrInvalidValue))) ∧
    revokeCalls (secretAccessTokenRevoke (exampleEnv (exampleClient (.ok exampleToken) none))
      exampleWorld (some serviceAccountScenario)).2.trace = [] ∧
    (secretAccessTokenRevoke (exampleEnv (exampleClient (.ok exampleToken) none))
      exampleWorld (some (serviceAccountWith (some (Value.int 42)) none))).1 =
      .panicked "interface conversion: parent_id is nil, not string" ∧
    revokeCalls (secretAccessTokenRevoke (exampleEnv (exampleClient (.ok exampleToken) none))
      exampleWorld (some (serviceAccountWith (some (Value.int 42)) none))).2.trace = [] := by
  refine ⟨by decide, rfl, by decide, by decide, by decide, by decide⟩

/-- C12 (the code at two minted credentials with a nil timestamp): the record
is in the store, the client is obtained, `RotateCurrentToken` succeeds and the
save succeeds.  With a nil `ExpiresAt`, and likewise with a nil `CreatedAt`,
`pathConfigTokenRotate` panics on the nil pointer after the save: its calls are
`getConfig`, `getClient`, `RotateCurrentToken` and `saveConfig`, the new token
is in the store, no event is sent and the client cached by `getClient` is still
in the cache. -/
theorem rotate_nil_timestamp_panics :
    (pathConfigTokenRotate (exampleEnv (exampleClient (.ok tokenWithoutExpiry) none))
      exampleWorld "default").1 =
      .panicked "nil pointer dereference: entryToken.ExpiresAt" ∧
    (pathConfigTokenRotate (exampleEnv (exampleClient (.ok tokenWithoutExpiry) none))
      exampleWorld "default").2.trace =
      [ Effect.getConfig "default", Effect.getClient "default", Effect.RotateCurrentToken,
        Effect.saveConfig (foldEntryToken exampleConfig tokenWithoutExpiry) none ] ∧
    ((pathConfigTokenRotate (exampleEnv (exampleClient (.ok tokenWithoutExpiry) none))
      exampleWorld "default").2.storage.map (fun records => records.map (fun c => c.Token))) =
      some ["glpat-new"] ∧
    ((pathConfigTokenRotate (exampleEnv (exampleClient (.ok tokenWithoutExpiry) none))
      exampleWorld "default").2.clients "default").isSome = true ∧
    (pathConfigTokenRotate (exampleEnv (exampleClient (.ok tokenWithoutCreation) none))
      exampleWorld "default").1 =
      .panicked "nil pointer dereference: entryToken.CreatedAt" ∧
    events (pathConfigTokenRotate (exampleEnv (exampleClient (.ok tokenWithoutCreation) none))
      exampleWorld "default").2.trace = [] ∧
    ((pathConfigTokenRotate (exampleEnv (exampleClient (.ok tokenWithoutCreation) none))
      exampleWorld "default").2.clients "default").isSome = true := by
  refine ⟨rfl, rfl, rfl, rfl, rfl, rfl, rfl⟩

end Gitlab
